import Mathlib

/-!
Shallow embedding of the WebRTC call-signaling layer of NodeCrypt:
the `RTCManager` class (src/webrtc/webrtc_rtc-manager.js) and the
`RTCSignaling` class (src/unnamed/part_001, rtc-signaling.js).

Modelling conventions:
* JS `Map` objects become association lists `List (String × α)` with
  `mget` / `mset` / `mdel` mirroring `get` / `set` / `delete`.
* The transport engine (`RTCPeerConnection`) is modelled by the record
  `PeerConnection` holding the observable facts the source reads or
  writes: attached sender tracks, local and remote session
  descriptions, and the ordered list of candidates handed to the
  engine via `addIceCandidate`.
* Media tracks are identified by `Nat` ids; `track.stop()` mutates the
  shared track object, modelled by the global `stoppedTracks` list.
* Calls to `nodeCrypt.send` are recorded in order in the ghost trace
  `sent`; actual peer-connection closures in `closedPeers`; invocations
  of the caller-facing `config` callbacks in `uiEvents`.
* Engine promises that the source awaits are modelled as completing
  successfully, except where a claim depends on the failure path:
  `createOffer` takes an explicit success flag `offerOk`, and engine
  payloads produced asynchronously (offer/answer descriptions, the
  current time) are explicit parameters.
* JS exceptions become `Except String`; since mutations performed
  before a throw persist, every fallible operation returns its state
  alongside the `Except` result.
-/

/-- Association-list lookup, mirroring JS `Map.prototype.get`. -/
def mget {α : Type} (k : String) : List (String × α) → Option α
  | [] => none
  | (k2, v) :: rest => if k2 = k then some v else mget k rest

/-- Association-list insert-or-replace, mirroring JS `Map.prototype.set`. -/
def mset {α : Type} (k : String) (v : α) : List (String × α) → List (String × α)
  | [] => [(k, v)]
  | (k2, w) :: rest => if k2 = k then (k, v) :: rest else (k2, w) :: mset k v rest

/-- Association-list removal, mirroring JS `Map.prototype.delete` (keys
are unique in every reachable map, so removing all bindings of the key
coincides with removing the one binding). -/
def mdel {α : Type} (k : String) : List (String × α) → List (String × α)
  | [] => []
  | (k2, w) :: rest => if k2 = k then mdel k rest else (k2, w) :: mdel k rest

/-- One ICE candidate as carried in signaling payloads. -/
structure Candidate where
  candidate : String
  sdpMLineIndex : Nat
  sdpMid : String
deriving Repr, DecidableEq

/-- Observable state of one underlying `RTCPeerConnection`:
sender track ids, committed descriptions, and the candidates handed to
the engine (in order of the `addIceCandidate` calls made on it). -/
structure PeerConnection where
  senders : List Nat
  localDescription : Option String
  remoteDescription : Option String
  addedCandidates : List Candidate
deriving Repr, DecidableEq

/-- State of an `RTCManager` instance.  `stoppedTracks` records which
shared media-track objects have had `stop()` called on them, and
`closedPeers` is the ghost trace of actual peer-connection closures. -/
structure RTCManagerState where
  peerConnections : List (String × PeerConnection)
  localStream : Option (List Nat)
  dataChannels : List String
  stoppedTracks : List Nat
  closedPeers : List String
deriving Repr, DecidableEq

/-- `RTCManager.initLocalStream`: acquires the capture device and
stores the track list (the engine-produced tracks are a parameter). -/
def RTCManagerState.initLocalStream (m : RTCManagerState) (tracks : List Nat) :
    RTCManagerState :=
  { m with localStream := some tracks }

/-- `RTCManager.createPeerConnection(peerId, isInitiator)`: builds a fresh
connection, attaches every current local-stream track, eagerly creates the
data channel when initiator (whose `setupDataChannel` registers it in
`dataChannels`), and registers the connection — `Map.set` replaces any
existing entry for `peerId`; no existence check is made. -/
def RTCManagerState.createPeerConnection (m : RTCManagerState) (peerId : String)
    (isInitiator : Bool) : RTCManagerState :=
  let pc : PeerConnection :=
    { senders := m.localStream.getD []
      localDescription := none
      remoteDescription := none
      addedCandidates := [] }
  { m with
    peerConnections := mset peerId pc m.peerConnections
    dataChannels :=
      if isInitiator ∧ peerId ∉ m.dataChannels then m.dataChannels ++ [peerId]
      else m.dataChannels }

/-- `RTCManager.createOffer(peerId)`: throws when no connection is
registered; otherwise asks the engine for an offer (`offerOk` models the
engine promise outcome, `sdp` its payload) and commits it locally.
The `onOffer` callback firing afterwards is handled by the caller. -/
def RTCManagerState.createOffer (m : RTCManagerState) (peerId : String)
    (offerOk : Bool) (sdp : String) : RTCManagerState × Except String String :=
  match mget peerId m.peerConnections with
  | none => (m, Except.error "Peer connection not found")
  | some pc =>
    if offerOk then
      let pcs := mset peerId { pc with localDescription := some sdp } m.peerConnections
      ({ m with peerConnections := pcs }, Except.ok sdp)
    else (m, Except.error "offer generation failed")

/-- `RTCManager.handleOffer(peerId, offer)`: throws when no connection is
registered; otherwise commits the remote offer, generates an answer
(payload `answerSdp`) and commits it locally, returning the answer.
The `onAnswer` callback firing afterwards is handled by the caller. -/
def RTCManagerState.handleOffer (m : RTCManagerState) (peerId : String)
    (remoteSdp : String) (answerSdp : String) :
    RTCManagerState × Except String String :=
  match mget peerId m.peerConnections with
  | none => (m, Except.error "Peer connection not found")
  | some pc =>
    let pc2 := { pc with remoteDescription := some remoteSdp,
                         localDescription := some answerSdp }
    ({ m with peerConnections := mset peerId pc2 m.peerConnections },
     Except.ok answerSdp)

/-- `RTCManager.handleAnswer(peerId, answer)`: throws when no connection
is registered; otherwise commits the remote answer. -/
def RTCManagerState.handleAnswer (m : RTCManagerState) (peerId : String)
    (sdp : String) : RTCManagerState × Except String Unit :=
  match mget peerId m.peerConnections with
  | none => (m, Except.error "Peer connection not found")
  | some pc =>
    let pc2 := { pc with remoteDescription := some sdp }
    ({ m with peerConnections := mset peerId pc2 m.peerConnections },
     Except.ok ())

/-- `RTCManager.addIceCandidate(peerId, candidate)`: its body is wrapped
in try/catch, so it is total.  A missing connection throws internally
(caught, logged, candidate dropped); otherwise the candidate is handed to
the engine immediately — there is no buffering and no check that a remote
description has been applied. -/
def RTCManagerState.addIceCandidate (m : RTCManagerState) (peerId : String)
    (c : Candidate) : RTCManagerState :=
  match mget peerId m.peerConnections with
  | none => m
  | some pc =>
    let pc2 := { pc with addedCandidates := pc.addedCandidates ++ [c] }
    { m with peerConnections := mset peerId pc2 m.peerConnections }

/-- `RTCManager.closePeerConnection(peerId)`: when a connection is
registered, `stop()` every sender track (these are the shared local-stream
tracks), close the connection and drop the bookkeeping; otherwise no-op. -/
def RTCManagerState.closePeerConnection (m : RTCManagerState) (peerId : String) :
    RTCManagerState :=
  match mget peerId m.peerConnections with
  | none => m
  | some pc =>
    { m with
      stoppedTracks := m.stoppedTracks ++ pc.senders
      peerConnections := mdel peerId m.peerConnections
      dataChannels := m.dataChannels.filter (fun q => q ≠ peerId)
      closedPeers := m.closedPeers ++ [peerId] }

/-- `RTCManager.stopLocalStream()`: stops every local-stream track and
releases the stream handle. -/
def RTCManagerState.stopLocalStream (m : RTCManagerState) : RTCManagerState :=
  match m.localStream with
  | none => m
  | some tracks =>
    { m with stoppedTracks := m.stoppedTracks ++ tracks, localStream := none }

/-- `RTCManager.destroy()`: stop the local stream, close every peer
connection, clear the registries. -/
def RTCManagerState.destroy (m : RTCManagerState) : RTCManagerState :=
  let m1 := m.stopLocalStream
  let m2 := (m1.peerConnections.map Prod.fst).foldl
    (fun acc p => acc.closePeerConnection p) m1
  { m2 with peerConnections := [], dataChannels := [] }

/-- One call record held in `RTCSignaling.activeCalls` (the object literal
set by `initiateCall` / `acceptCall`). -/
structure CallRecord where
  callId : String
  initiator : Bool
  startTime : Nat
  state : String
deriving Repr, DecidableEq

/-- Payload of one outbound signaling envelope, by message type. -/
inductive MsgData where
  | callRequest (callId : String)
  | callAccept (callId : String)
  | callReject (callId : String) (reason : String)
  | callEnd (callId : String)
  | offer (sdp : String)
  | answer (sdp : String)
  | iceCandidate (c : Candidate)
deriving Repr, DecidableEq

/-- One message handed to `nodeCrypt.send` (the `rtc:signal` wrapper with
its destination — the source's `to` field, a reserved word here — and the
inner envelope). -/
structure OutMsg where
  dest : String
  data : MsgData
deriving Repr, DecidableEq

/-- One invocation of a caller-facing `config` callback. -/
inductive UiEvent where
  | connState (peerId : String) (state : String)
  | callRequest (peerId : String) (callId : String)
  | callAccept (peerId : String) (callId : String)
  | callReject (peerId : String) (callId : String) (reason : String)
  | callEnd (peerId : String) (callId : String)
deriving Repr, DecidableEq

/-- An inbound signaling envelope as read by the handlers: the `type` tag
plus every payload field any handler dereferences. -/
structure InMsg where
  type : String
  callId : String
  reason : String
  sdp : String
  candidate : String
  sdpMLineIndex : Nat
  sdpMid : String
deriving Repr, DecidableEq

/-- State of an `RTCSignaling` instance: the wrapped `RTCManager`, the
`activeCalls` map, the secure channel's presence/openness
(`this.nodeCrypt` and `this.nodeCrypt.isOpen()`), and the ghost traces
`sent` (calls to `nodeCrypt.send`, in order) and `uiEvents`. -/
structure SignalingState where
  rtc : RTCManagerState
  activeCalls : List (String × CallRecord)
  hasChannel : Bool
  chanOpen : Bool
  sent : List OutMsg
  uiEvents : List UiEvent
deriving Repr, DecidableEq

/-- `RTCSignaling.sendSignalingMessage`: hands the wrapped message to
`nodeCrypt.send` only when the channel exists and is open; otherwise the
message is silently discarded and nothing happens. -/
def SignalingState.sendSignalingMessage (s : SignalingState) (peerId : String)
    (d : MsgData) : SignalingState :=
  if s.hasChannel && s.chanOpen then
    { s with sent := s.sent ++ [{ dest := peerId, data := d }] }
  else s

/-- `RTCSignaling.initiateCall(peerId, callId)`: sends `rtc:call-request`,
creates the peer connection as initiator, generates and sends the offer
(`offerOk`/`offerSdp` model the engine promise), then records the call as
`connecting` with `startTime` `now`.  On failure the error is logged and
rethrown with no cleanup, so mutations made before the throw persist. -/
def SignalingState.initiateCall (s : SignalingState) (peerId : String)
    (callId : String) (offerOk : Bool) (offerSdp : String) (now : Nat) :
    SignalingState × Except String String :=
  let s1 := s.sendSignalingMessage peerId (MsgData.callRequest callId)
  let s2 := { s1 with rtc := s1.rtc.createPeerConnection peerId true }
  match s2.rtc.createOffer peerId offerOk offerSdp with
  | (rtc3, Except.error e) => ({ s2 with rtc := rtc3 }, Except.error e)
  | (rtc3, Except.ok sdp) =>
    let s3 := { s2 with rtc := rtc3 }
    let s4 := s3.sendSignalingMessage peerId (MsgData.offer sdp)
    let rec1 : CallRecord :=
      { callId := callId, initiator := true, startTime := now, state := "connecting" }
    ({ s4 with activeCalls := mset peerId rec1 s4.activeCalls }, Except.ok callId)

/-- `RTCSignaling.acceptCall(peerId, callId)`: creates the peer connection
as receiver, sends `rtc:call-accept`, records the call as `connecting`. -/
def SignalingState.acceptCall (s : SignalingState) (peerId : String)
    (callId : String) (now : Nat) : SignalingState :=
  let s1 := { s with rtc := s.rtc.createPeerConnection peerId false }
  let s2 := s1.sendSignalingMessage peerId (MsgData.callAccept callId)
  let rec1 : CallRecord :=
    { callId := callId, initiator := false, startTime := now, state := "connecting" }
  { s2 with activeCalls := mset peerId rec1 s2.activeCalls }

/-- `RTCSignaling.rejectCall(peerId, callId, reason)`: sends
`rtc:call-reject` carrying the reason and deletes the call record; the
`rtcManager` is not touched. -/
def SignalingState.rejectCall (s : SignalingState) (peerId : String)
    (callId : String) (reason : String) : SignalingState :=
  let s1 := s.sendSignalingMessage peerId (MsgData.callReject callId reason)
  { s1 with activeCalls := mdel peerId s1.activeCalls }

/-- `RTCSignaling.endCall(peerId)`: when a call record exists, sends
`rtc:call-end`, closes the peer connection and deletes the record;
otherwise a no-op. -/
def SignalingState.endCall (s : SignalingState) (peerId : String) :
    SignalingState :=
  match mget peerId s.activeCalls with
  | none => s
  | some call =>
    let s1 := s.sendSignalingMessage peerId (MsgData.callEnd call.callId)
    let s2 := { s1 with rtc := s1.rtc.closePeerConnection peerId }
    { s2 with activeCalls := mdel peerId s2.activeCalls }

/-- Core of `RTCSignaling.handleOffer` after the ensure-connection step:
applies the remote offer and answers through the manager (`ans` is the
engine-generated answer description), and sends the answer via the
`onAnswer` callback; a manager error is caught and logged. -/
def SignalingState.handleOfferWith (s1 : SignalingState) (ans : String)
    (peerId : String) (m : InMsg) : SignalingState :=
  match s1.rtc.handleOffer peerId m.sdp ans with
  | (rtc2, Except.error _) => { s1 with rtc := rtc2 }
  | (rtc2, Except.ok answer) =>
    ({ s1 with rtc := rtc2 }).sendSignalingMessage peerId (MsgData.answer answer)

/-- `RTCSignaling.handleOffer`: creates a receiver connection when none is
registered, then runs the offer/answer core `handleOfferWith`. -/
def SignalingState.handleOffer (s : SignalingState) (ans : String)
    (peerId : String) (m : InMsg) : SignalingState :=
  if (mget peerId s.rtc.peerConnections).isNone then
    SignalingState.handleOfferWith
      { s with rtc := s.rtc.createPeerConnection peerId false } ans peerId m
  else s.handleOfferWith ans peerId m

/-- `RTCSignaling.handleAnswer`: applies the remote answer through the
manager; every error is caught and logged. -/
def SignalingState.handleAnswer (s : SignalingState) (peerId : String)
    (m : InMsg) : SignalingState :=
  match s.rtc.handleAnswer peerId m.sdp with
  | (rtc2, _) => { s with rtc := rtc2 }

/-- `RTCSignaling.handleIceCandidate`: rebuilds the candidate object from
the message fields and forwards it to `rtcManager.addIceCandidate`;
every error is caught and logged. -/
def SignalingState.handleIceCandidate (s : SignalingState) (peerId : String)
    (m : InMsg) : SignalingState :=
  let c : Candidate :=
    { candidate := m.candidate, sdpMLineIndex := m.sdpMLineIndex, sdpMid := m.sdpMid }
  { s with rtc := s.rtc.addIceCandidate peerId c }

/-- `RTCSignaling.handleCallRequest`: only invokes the caller callback. -/
def SignalingState.handleCallRequest (s : SignalingState) (peerId : String)
    (m : InMsg) : SignalingState :=
  { s with uiEvents := s.uiEvents ++ [UiEvent.callRequest peerId m.callId] }

/-- `RTCSignaling.handleCallAccept`: only invokes the caller callback. -/
def SignalingState.handleCallAccept (s : SignalingState) (peerId : String)
    (m : InMsg) : SignalingState :=
  { s with uiEvents := s.uiEvents ++ [UiEvent.callAccept peerId m.callId] }

/-- `RTCSignaling.handleCallReject`: invokes the caller callback, deletes
the call record and closes the peer connection. -/
def SignalingState.handleCallReject (s : SignalingState) (peerId : String)
    (m : InMsg) : SignalingState :=
  let s1 := { s with uiEvents :=
    s.uiEvents ++ [UiEvent.callReject peerId m.callId m.reason] }
  let s2 := { s1 with activeCalls := mdel peerId s1.activeCalls }
  { s2 with rtc := s2.rtc.closePeerConnection peerId }

/-- `RTCSignaling.handleCallEnd`: invokes the caller callback, deletes the
call record and closes the peer connection. -/
def SignalingState.handleCallEnd (s : SignalingState) (peerId : String)
    (m : InMsg) : SignalingState :=
  let s1 := { s with uiEvents := s.uiEvents ++ [UiEvent.callEnd peerId m.callId] }
  let s2 := { s1 with activeCalls := mdel peerId s1.activeCalls }
  { s2 with rtc := s2.rtc.closePeerConnection peerId }

/-- `RTCSignaling.handleSignalingMessage(peerId, message)`: looks up the
handler registered for `message.type` in the constructor's handler map and
runs it inside try/catch (every built-in handler is total after its own
internal catch, so the dispatch-level catch never fires for them); with no
registered handler, nothing happens.  `ans` threads the engine-generated
answer description used by the offer handler. -/
def SignalingState.handleSignalingMessage (s : SignalingState) (ans : String)
    (peerId : String) (m : InMsg) : SignalingState :=
  if m.type = "rtc:offer" then s.handleOffer ans peerId m
  else if m.type = "rtc:answer" then s.handleAnswer peerId m
  else if m.type = "rtc:ice-candidate" then s.handleIceCandidate peerId m
  else if m.type = "rtc:call-request" then s.handleCallRequest peerId m
  else if m.type = "rtc:call-accept" then s.handleCallAccept peerId m
  else if m.type = "rtc:call-reject" then s.handleCallReject peerId m
  else if m.type = "rtc:call-end" then s.handleCallEnd peerId m
  else s

/-- The `onConnectionStateChange` path: the engine's
`onconnectionstatechange` fires in `RTCManager`, which invokes the
signaling callback (which forwards to the caller's `config` callback —
recorded in `uiEvents`) and then closes the peer connection when the
state is `failed` or `disconnected`.  Nothing else is updated. -/
def SignalingState.onConnectionStateChange (s : SignalingState)
    (peerId : String) (st : String) : SignalingState :=
  let s1 := { s with uiEvents := s.uiEvents ++ [UiEvent.connState peerId st] }
  if st = "failed" || st = "disconnected" then
    { s1 with rtc := s1.rtc.closePeerConnection peerId }
  else s1

/-- The `onIceCandidate` path: the engine discovers a local candidate and
`RTCManager` invokes the signaling callback, which sends
`rtc:ice-candidate`. -/
def SignalingState.onIceCandidate (s : SignalingState) (peerId : String)
    (c : Candidate) : SignalingState :=
  s.sendSignalingMessage peerId (MsgData.iceCandidate c)

/-- `Except` result is an error (used to observe JS throws). -/
def isErr {α : Type} : Except String α → Bool
  | Except.error _ => true
  | Except.ok _ => false

/-! Concrete states used to evaluate the definitions. -/

/-- A manager with nothing registered. -/
def rtcEmpty : RTCManagerState :=
  { peerConnections := [], localStream := none, dataChannels := [],
    stoppedTracks := [], closedPeers := [] }

/-- A freshly created connection with no local stream attached. -/
def pcFresh : PeerConnection :=
  { senders := [], localDescription := none, remoteDescription := none,
    addedCandidates := [] }

/-- A signaling instance over an open secure channel with no calls. -/
def sigEmpty : SignalingState :=
  { rtc := rtcEmpty, activeCalls := [], hasChannel := true, chanOpen := true,
    sent := [], uiEvents := [] }

/-- A signaling instance holding one registered connection for peer `p`
whose remote description has not been applied. -/
def c1State : SignalingState :=
  { sigEmpty with rtc := { rtcEmpty with peerConnections := [("p", pcFresh)] } }

/-- An inbound `rtc:ice-candidate` envelope. -/
def c1Msg : InMsg :=
  { type := "rtc:ice-candidate", callId := "", reason := "", sdp := "",
    candidate := "cand1", sdpMLineIndex := 0, sdpMid := "m0" }

/-- The candidate object `handleIceCandidate` rebuilds from `c1Msg`. -/
def c1Cand : Candidate :=
  { candidate := "cand1", sdpMLineIndex := 0, sdpMid := "m0" }

/-- A connecting (non-terminal) call record for callId `c1`. -/
def c2Rec : CallRecord :=
  { callId := "c1", initiator := true, startTime := 0, state := "connecting" }

/-- A signaling instance with one connecting call and its connection. -/
def c2State : SignalingState :=
  { sigEmpty with
    rtc := { rtcEmpty with peerConnections := [("p", pcFresh)] },
    activeCalls := [("p", c2Rec)] }

/-- A connection with both local-stream tracks attached as senders. -/
def pcAV : PeerConnection :=
  { senders := [0, 1], localDescription := none, remoteDescription := none,
    addedCandidates := [] }

/-- A manager with a shared two-track local stream and two open sessions
both carrying those tracks. -/
def c4Rtc : RTCManagerState :=
  { peerConnections := [("p", pcAV), ("q", pcAV)], localStream := some [0, 1],
    dataChannels := [], stoppedTracks := [], closedPeers := [] }

/-- A connection that has already been through offer/answer negotiation. -/
def pcNegotiated : PeerConnection :=
  { senders := [], localDescription := some "localSdp",
    remoteDescription := some "remoteSdp", addedCandidates := [] }

/-- A manager already holding a negotiated session for peer `p`. -/
def c6Rtc : RTCManagerState :=
  { peerConnections := [("p", pcNegotiated)], localStream := none,
    dataChannels := [], stoppedTracks := [], closedPeers := [] }

/-- An inbound envelope whose type has no registered handler. -/
def c7Msg : InMsg :=
  { type := "rtc:unknown", callId := "x", reason := "r", sdp := "s",
    candidate := "c", sdpMLineIndex := 1, sdpMid := "m" }

/-- A signaling instance whose secure channel is present but closed. -/
def c10State : SignalingState :=
  { sigEmpty with chanOpen := false }

/-! Basic lemmas about the map operations. -/

theorem mget_mset_self {α : Type} (k : String) (v : α) (m : List (String × α)) :
    mget k (mset k v m) = some v := by
  induction m with
  | nil => simp [mget, mset]
  | cons kv rest ih =>
    obtain ⟨k2, w⟩ := kv
    by_cases h : k2 = k
    · simp [mget, mset, h]
    · simp [mget, mset, h, ih]

theorem mget_mset_ne {α : Type} (k q : String) (v : α) (m : List (String × α))
    (h : k ≠ q) : mget q (mset k v m) = mget q m := by
  induction m with
  | nil => simp [mget, mset, h]
  | cons kv rest ih =>
    obtain ⟨k2, w⟩ := kv
    by_cases h2 : k2 = k
    · subst h2
      simp [mget, mset, h]
    · simp [mget, mset, h2, ih]

theorem mget_mdel_self {α : Type} (k : String) (m : List (String × α)) :
    mget k (mdel k m) = none := by
  induction m with
  | nil => simp [mget, mdel]
  | cons kv rest ih =>
    obtain ⟨k2, w⟩ := kv
    by_cases h : k2 = k
    · simp [mdel, h, ih]
    · simp [mdel, mget, h, ih]

theorem mget_mdel_ne {α : Type} (k q : String) (m : List (String × α))
    (h : k ≠ q) : mget q (mdel k m) = mget q m := by
  induction m with
  | nil => simp [mdel]
  | cons kv rest ih =>
    obtain ⟨k2, w⟩ := kv
    by_cases h2 : k2 = k
    · subst h2
      simp [mdel, mget, h, ih]
    · simp [mdel, mget, h2, ih]

/-! Frame lemmas about the individual operations. -/

theorem sendSignalingMessage_rtc (s : SignalingState) (p : String) (d : MsgData) :
    (s.sendSignalingMessage p d).rtc = s.rtc := by
  simp only [SignalingState.sendSignalingMessage]
  split <;> rfl

theorem sendSignalingMessage_activeCalls (s : SignalingState) (p : String)
    (d : MsgData) : (s.sendSignalingMessage p d).activeCalls = s.activeCalls := by
  simp only [SignalingState.sendSignalingMessage]
  split <;> rfl

theorem sendSignalingMessage_hasChannel (s : SignalingState) (p : String)
    (d : MsgData) : (s.sendSignalingMessage p d).hasChannel = s.hasChannel := by
  simp only [SignalingState.sendSignalingMessage]
  split <;> rfl

theorem sendSignalingMessage_chanOpen (s : SignalingState) (p : String)
    (d : MsgData) : (s.sendSignalingMessage p d).chanOpen = s.chanOpen := by
  simp only [SignalingState.sendSignalingMessage]
  split <;> rfl

theorem sendSignalingMessage_uiEvents (s : SignalingState) (p : String)
    (d : MsgData) : (s.sendSignalingMessage p d).uiEvents = s.uiEvents := by
  simp only [SignalingState.sendSignalingMessage]
  split <;> rfl

theorem sendSignalingMessage_sent_of_open (s : SignalingState) (p : String)
    (d : MsgData) (hch : s.hasChannel = true) (hop : s.chanOpen = true) :
    (s.sendSignalingMessage p d).sent = s.sent ++ [{ dest := p, data := d }] := by
  simp [SignalingState.sendSignalingMessage, hch, hop]

theorem createPeerConnection_mget_ne (m : RTCManagerState) (p q : String)
    (ini : Bool) (h : p ≠ q) :
    mget q (m.createPeerConnection p ini).peerConnections
      = mget q m.peerConnections := by
  simp [RTCManagerState.createPeerConnection, mget_mset_ne _ _ _ _ h]

theorem closePeerConnection_mget_ne (m : RTCManagerState) (p q : String)
    (h : p ≠ q) :
    mget q (m.closePeerConnection p).peerConnections
      = mget q m.peerConnections := by
  simp only [RTCManagerState.closePeerConnection]
  cases hp : mget p m.peerConnections with
  | none => rfl
  | some pc => simp [mget_mdel_ne _ _ _ h]

theorem addIceCandidate_mget_ne (m : RTCManagerState) (p q : String)
    (c : Candidate) (h : p ≠ q) :
    mget q (m.addIceCandidate p c).peerConnections
      = mget q m.peerConnections := by
  simp only [RTCManagerState.addIceCandidate]
  cases hp : mget p m.peerConnections with
  | none => rfl
  | some pc => simp [mget_mset_ne _ _ _ _ h]

theorem handleOfferM_mget_ne (m : RTCManagerState) (p q : String)
    (rs as2 : String) (h : p ≠ q) :
    mget q (m.handleOffer p rs as2).1.peerConnections
      = mget q m.peerConnections := by
  simp only [RTCManagerState.handleOffer]
  cases hp : mget p m.peerConnections with
  | none => rfl
  | some pc => simp [mget_mset_ne _ _ _ _ h]

theorem handleAnswerM_mget_ne (m : RTCManagerState) (p q : String)
    (sdp : String) (h : p ≠ q) :
    mget q (m.handleAnswer p sdp).1.peerConnections
      = mget q m.peerConnections := by
  simp only [RTCManagerState.handleAnswer]
  cases hp : mget p m.peerConnections with
  | none => rfl
  | some pc => simp [mget_mset_ne _ _ _ _ h]

/-- `endCall` is a no-op when no call record exists for the peer. -/
theorem endCall_of_none (s : SignalingState) (p : String)
    (h : mget p s.activeCalls = none) : s.endCall p = s := by
  simp [SignalingState.endCall, h]

/-- Explicit form of `endCall` when a record and a connection exist and
the channel is open. -/
theorem endCall_step (s : SignalingState) (p : String) (c : CallRecord)
    (pc : PeerConnection) (hc : mget p s.activeCalls = some c)
    (hpc : mget p s.rtc.peerConnections = some pc)
    (hch : s.hasChannel = true) (hop : s.chanOpen = true) :
    s.endCall p =
      { rtc :=
          { peerConnections := mdel p s.rtc.peerConnections
            localStream := s.rtc.localStream
            dataChannels := s.rtc.dataChannels.filter (fun q => q ≠ p)
            stoppedTracks := s.rtc.stoppedTracks ++ pc.senders
            closedPeers := s.rtc.closedPeers ++ [p] }
        activeCalls := mdel p s.activeCalls
        hasChannel := s.hasChannel
        chanOpen := s.chanOpen
        sent := s.sent ++ [{ dest := p, data := MsgData.callEnd c.callId }]
        uiEvents := s.uiEvents } := by
  simp [SignalingState.endCall, hc, SignalingState.sendSignalingMessage, hch, hop,
        RTCManagerState.closePeerConnection, hpc]

/-! Claim theorems. -/

/-- C10: when the secure channel is absent or not open,
`sendSignalingMessage` silently discards the message: it returns normally
(it is a total function), produces no send, and leaves the entire
signaling state — call records, sessions, traces — unchanged, so the
caller is never told the send did not happen. -/
theorem c10_send_silently_discarded (s : SignalingState) (p : String)
    (d : MsgData) (h : s.hasChannel = false ∨ s.chanOpen = false) :
    s.sendSignalingMessage p d = s := by
  rcases h with h | h <;> simp [SignalingState.sendSignalingMessage, h]

/-- Witness for C10 at a concrete closed-channel state. -/
theorem c10_send_silently_discarded_witness :
    c10State.sendSignalingMessage "p" (MsgData.callEnd "c1") = c10State :=
  c10_send_silently_discarded c10State "p" (MsgData.callEnd "c1") (Or.inr rfl)

/-- C8: `rejectCall` sends exactly one `rtc:call-reject` carrying the
supplied reason, discards the call record for the peer, and leaves the
transport manager untouched — in particular it never creates (nor closes)
a transport session. -/
theorem c8_rejectCall_one_send_no_session (s : SignalingState)
    (p cid reason : String) (hch : s.hasChannel = true)
    (hop : s.chanOpen = true) :
    (s.rejectCall p cid reason).sent
      = s.sent ++ [{ dest := p, data := MsgData.callReject cid reason }] ∧
    mget p (s.rejectCall p cid reason).activeCalls = none ∧
    (s.rejectCall p cid reason).rtc = s.rtc := by
  refine ⟨?_, ?_, ?_⟩
  · simp [SignalingState.rejectCall,
      sendSignalingMessage_sent_of_open s p (MsgData.callReject cid reason) hch hop]
  · simp [SignalingState.rejectCall, sendSignalingMessage_activeCalls,
      mget_mdel_self]
  · simp [SignalingState.rejectCall, sendSignalingMessage_rtc]

/-- Witness for C8 on a concrete ringing-side state. -/
theorem c8_rejectCall_one_send_no_session_witness :
    (sigEmpty.rejectCall "p" "c1" "user-rejected").sent
      = sigEmpty.sent ++ [{ dest := "p", data := MsgData.callReject "c1" "user-rejected" }] ∧
    mget "p" (sigEmpty.rejectCall "p" "c1" "user-rejected").activeCalls = none ∧
    (sigEmpty.rejectCall "p" "c1" "user-rejected").rtc = sigEmpty.rtc :=
  c8_rejectCall_one_send_no_session sigEmpty "p" "c1" "user-rejected" rfl rfl

/-- C1 counterexample: the code has no candidate queue.  In `c1State` the
remote description for peer `p` has not been applied, yet
`handleIceCandidate` hands the arriving candidate to the engine
immediately (`addedCandidates` becomes `[c1Cand]` while
`remoteDescription` is still `none`); and for a peer with no registered
connection (`q`) the candidate is dropped outright rather than buffered.
This falsifies both "never before the remote description" and "forwarded
exactly once". -/
theorem c1_counterexample :
    (mget "p" c1State.rtc.peerConnections).map PeerConnection.remoteDescription
      = some none ∧
    (mget "p" (c1State.handleIceCandidate "p" c1Msg).rtc.peerConnections).map
      PeerConnection.addedCandidates = some [c1Cand] ∧
    (mget "p" (c1State.handleIceCandidate "p" c1Msg).rtc.peerConnections).map
      PeerConnection.remoteDescription = some none ∧
    c1State.handleIceCandidate "q" c1Msg = c1State := by decide

/-- C1 amended: there is no buffering of early connectivity candidates.
`handleIceCandidate` hands the candidate to the transport engine
immediately whenever a connection is registered for the peer — whether or
not the remote description has been applied — and drops it (error caught
and logged) when no connection is registered. -/
theorem c1_candidates_forwarded_immediately (s : SignalingState) (p : String)
    (m : InMsg) :
    (mget p s.rtc.peerConnections = none → s.handleIceCandidate p m = s) ∧
    (∀ pc, mget p s.rtc.peerConnections = some pc →
      mget p (s.handleIceCandidate p m).rtc.peerConnections
        = some { pc with addedCandidates := pc.addedCandidates ++
            [{ candidate := m.candidate, sdpMLineIndex := m.sdpMLineIndex,
               sdpMid := m.sdpMid }] }) := by
  constructor
  · intro h
    simp [SignalingState.handleIceCandidate, RTCManagerState.addIceCandidate, h]
  · intro pc h
    simp [SignalingState.handleIceCandidate, RTCManagerState.addIceCandidate, h,
      mget_mset_self]

/-- Witness for the amended C1 at concrete states: the drop case for an
unregistered peer and the immediate-forward case for a registered peer
with no remote description applied. -/
theorem c1_candidates_forwarded_immediately_witness :
    (c1State.handleIceCandidate "q" c1Msg = c1State) ∧
    mget "q" ((sigEmpty.handleIceCandidate "q" c1Msg).rtc.peerConnections) = none ∧
    mget "p" ((c1State.handleIceCandidate "p" c1Msg).rtc.peerConnections)
      = some { pcFresh with addedCandidates := pcFresh.addedCandidates ++ [c1Cand] } := by
  refine ⟨?_, ?_, ?_⟩
  · exact (c1_candidates_forwarded_immediately c1State "q" c1Msg).1 (by decide)
  · rw [(c1_candidates_forwarded_immediately sigEmpty "q" c1Msg).1 (by decide)]
    decide
  · exact (c1_candidates_forwarded_immediately c1State "p" c1Msg).2 pcFresh (by decide)

/-- C2: `endCall` is idempotent.  Starting from a state with a call
record and a registered transport session for the peer and an open
channel, iterating `endCall` N ≥ 1 times produces exactly one
`rtc:call-end` send and exactly one closure of that peer's connection
(the traces grow by exactly one entry), and afterwards neither a call
record nor a session remains — so every call after the first, like any
call on an unknown peer, is a no-op. -/
theorem c2_endCall_idempotent (s : SignalingState) (p : String)
    (c : CallRecord) (pc : PeerConnection) (n : Nat) (hn : 1 ≤ n)
    (hc : mget p s.activeCalls = some c)
    (hpc : mget p s.rtc.peerConnections = some pc)
    (hch : s.hasChannel = true) (hop : s.chanOpen = true) :
    ((fun t => SignalingState.endCall t p)^[n] s).sent
      = s.sent ++ [{ dest := p, data := MsgData.callEnd c.callId }] ∧
    ((fun t => SignalingState.endCall t p)^[n] s).rtc.closedPeers
      = s.rtc.closedPeers ++ [p] ∧
    mget p ((fun t => SignalingState.endCall t p)^[n] s).activeCalls = none ∧
    mget p ((fun t => SignalingState.endCall t p)^[n] s).rtc.peerConnections
      = none := by
  obtain ⟨k, rfl⟩ : ∃ k, n = k + 1 :=
    ⟨n - 1, (Nat.succ_pred_eq_of_pos hn).symm⟩
  rw [Function.iterate_succ_apply]
  have hstep := endCall_step s p c pc hc hpc hch hop
  have hnone : mget p (s.endCall p).activeCalls = none := by
    rw [hstep]
    exact mget_mdel_self p s.activeCalls
  have hfix : ((fun t => SignalingState.endCall t p)^[k] (s.endCall p))
      = s.endCall p :=
    Function.iterate_fixed (endCall_of_none (s.endCall p) p hnone) k
  rw [hfix, hstep]
  exact ⟨rfl, rfl, mget_mdel_self p s.activeCalls,
    mget_mdel_self p s.rtc.peerConnections⟩

/-- Witness for C2: three successive `endCall` calls on a concrete state
with one connecting call. -/
theorem c2_endCall_idempotent_witness :
    ((fun t => SignalingState.endCall t "p")^[3] c2State).sent
      = c2State.sent ++ [{ dest := "p", data := MsgData.callEnd "c1" }] ∧
    ((fun t => SignalingState.endCall t "p")^[3] c2State).rtc.closedPeers
      = c2State.rtc.closedPeers ++ ["p"] ∧
    mget "p" ((fun t => SignalingState.endCall t "p")^[3] c2State).activeCalls
      = none ∧
    mget "p" ((fun t => SignalingState.endCall t "p")^[3] c2State).rtc.peerConnections
      = none :=
  c2_endCall_idempotent c2State "p" c2Rec pcFresh 3 (by decide) (by decide)
    (by decide) rfl rfl

/-- A connecting call record with a nonzero start time, for observing
that the connectivity-connected report changes nothing. -/
def c3Rec : CallRecord :=
  { callId := "c9", initiator := true, startTime := 5, state := "connecting" }

/-- A signaling instance with one connecting call for peer `p`. -/
def c3State : SignalingState :=
  { sigEmpty with
    rtc := { rtcEmpty with peerConnections := [("p", pcFresh)] },
    activeCalls := [("p", c3Rec)] }

/-- C3 counterexample: when the engine reports connectivity state
`connected` for peer `p`, whose call record is pre-terminal
(`connecting`), the Coordinator does not mark the session established and
does not touch its start time: the record is bit-for-bit unchanged and
the transport state is untouched — the event is merely forwarded to the
caller callback. -/
theorem c3_counterexample :
    mget "p" c3State.activeCalls = some c3Rec ∧
    c3Rec.state = "connecting" ∧
    mget "p" (c3State.onConnectionStateChange "p" "connected").activeCalls
      = some c3Rec ∧
    (c3State.onConnectionStateChange "p" "connected").rtc = c3State.rtc ∧
    (c3State.onConnectionStateChange "p" "connected").uiEvents
      = [UiEvent.connState "p" "connected"] := by decide

/-- C3 amended: on a `connected` connectivity report the Coordinator only
forwards the event to the configured callback; the call record (state and
start time, which were fixed when the call was initiated or accepted) and
every transport session are left unchanged. -/
theorem c3_connected_only_forwarded (s : SignalingState) (p : String) :
    s.onConnectionStateChange p "connected"
      = { s with uiEvents := s.uiEvents ++ [UiEvent.connState p "connected"] } := by
  simp [SignalingState.onConnectionStateChange]

/-- C4 counterexample: in `c4Rtc` the singleton local stream's tracks
`[0, 1]` are attached to both open sessions.  Closing peer `p`'s session
alone stops both shared tracks (without releasing the stream handle), so
the other session `q` is left holding stopped tracks — closing one peer's
session does not leave the local stream's tracks unaffected. -/
theorem c4_counterexample :
    c4Rtc.stoppedTracks = [] ∧
    c4Rtc.localStream = some [0, 1] ∧
    (mget "p" c4Rtc.peerConnections).map PeerConnection.senders = some [0, 1] ∧
    (mget "q" c4Rtc.peerConnections).map PeerConnection.senders = some [0, 1] ∧
    (c4Rtc.closePeerConnection "p").stoppedTracks = [0, 1] ∧
    (c4Rtc.closePeerConnection "p").localStream = some [0, 1] ∧
    (mget "q" (c4Rtc.closePeerConnection "p").peerConnections).map
      PeerConnection.senders = some [0, 1] := by decide

/-- C4 amended: closing one peer's session calls `stop()` on every track
attached to that connection as a sender — and those are the shared local
stream's tracks — while the stream handle itself is released (set to
`none`) only by the full-shutdown path `stopLocalStream`. -/
theorem c4_close_stops_shared_tracks (m : RTCManagerState) (p : String)
    (pc : PeerConnection) (h : mget p m.peerConnections = some pc) :
    (m.closePeerConnection p).stoppedTracks = m.stoppedTracks ++ pc.senders ∧
    (m.closePeerConnection p).localStream = m.localStream := by
  simp [RTCManagerState.closePeerConnection, h]

/-- Witness for the amended C4 at the concrete two-session state. -/
theorem c4_close_stops_shared_tracks_witness :
    (c4Rtc.closePeerConnection "p").stoppedTracks
      = c4Rtc.stoppedTracks ++ pcAV.senders ∧
    (c4Rtc.closePeerConnection "p").localStream = c4Rtc.localStream :=
  c4_close_stops_shared_tracks c4Rtc "p" pcAV (by decide)

/-! Per-handler isolation lemmas: each built-in handler leaves the call
records untouched (or touches only its own peer's) and never alters
another peer's transport session. -/

theorem handleOfferWith_parts (s1 : SignalingState) (ans p : String)
    (m : InMsg) :
    (s1.handleOfferWith ans p m).activeCalls = s1.activeCalls ∧
    ∀ q, p ≠ q → mget q (s1.handleOfferWith ans p m).rtc.peerConnections
      = mget q s1.rtc.peerConnections := by
  unfold SignalingState.handleOfferWith
  rcases h2 : s1.rtc.handleOffer p m.sdp ans with ⟨rtc2, res⟩
  have h2b : ∀ q, p ≠ q →
      mget q rtc2.peerConnections = mget q s1.rtc.peerConnections := by
    intro q hpq
    have h3 := handleOfferM_mget_ne s1.rtc p q m.sdp ans hpq
    rw [h2] at h3
    exact h3
  cases res with
  | error e =>
    simp only [h2]
    exact ⟨by trivial, h2b⟩
  | ok answer =>
    simp only [h2]
    constructor
    · simp [sendSignalingMessage_activeCalls]
    · intro q hpq
      have h4 : ((({ s1 with rtc := rtc2 } : SignalingState)).sendSignalingMessage
          p (MsgData.answer answer)).rtc = rtc2 :=
        sendSignalingMessage_rtc _ p _
      rw [h4]
      exact h2b q hpq

theorem handleOffer_parts (s : SignalingState) (ans p : String) (m : InMsg) :
    (s.handleOffer ans p m).activeCalls = s.activeCalls ∧
    ∀ q, p ≠ q → mget q (s.handleOffer ans p m).rtc.peerConnections
      = mget q s.rtc.peerConnections := by
  unfold SignalingState.handleOffer
  by_cases hn : (mget p s.rtc.peerConnections).isNone = true
  · rw [if_pos hn]
    obtain ⟨ha, hb⟩ := handleOfferWith_parts
      { s with rtc := s.rtc.createPeerConnection p false } ans p m
    refine ⟨ha, fun q hpq => ?_⟩
    exact (hb q hpq).trans (createPeerConnection_mget_ne s.rtc p q false hpq)
  · rw [if_neg hn]
    exact handleOfferWith_parts s ans p m

theorem handleAnswer_parts (s : SignalingState) (p : String) (m : InMsg) :
    (s.handleAnswer p m).activeCalls = s.activeCalls ∧
    ∀ q, p ≠ q → mget q (s.handleAnswer p m).rtc.peerConnections
      = mget q s.rtc.peerConnections := by
  unfold SignalingState.handleAnswer
  rcases h2 : s.rtc.handleAnswer p m.sdp with ⟨rtc2, res⟩
  have h2b : ∀ q, p ≠ q →
      mget q rtc2.peerConnections = mget q s.rtc.peerConnections := by
    intro q hpq
    have h3 := handleAnswerM_mget_ne s.rtc p q m.sdp hpq
    rw [h2] at h3
    exact h3
  exact ⟨rfl, h2b⟩

theorem handleIceCandidate_parts (s : SignalingState) (p : String) (m : InMsg) :
    (s.handleIceCandidate p m).activeCalls = s.activeCalls ∧
    ∀ q, p ≠ q → mget q (s.handleIceCandidate p m).rtc.peerConnections
      = mget q s.rtc.peerConnections := by
  refine ⟨rfl, fun q hpq => ?_⟩
  exact addIceCandidate_mget_ne s.rtc p q _ hpq

theorem handleCallReject_parts (s : SignalingState) (p : String) (m : InMsg) :
    (∀ q, p ≠ q → mget q (s.handleCallReject p m).activeCalls
      = mget q s.activeCalls) ∧
    ∀ q, p ≠ q → mget q (s.handleCallReject p m).rtc.peerConnections
      = mget q s.rtc.peerConnections := by
  constructor
  · intro q hpq
    exact mget_mdel_ne p q s.activeCalls hpq
  · intro q hpq
    exact closePeerConnection_mget_ne _ p q hpq

theorem handleCallEnd_parts (s : SignalingState) (p : String) (m : InMsg) :
    (∀ q, p ≠ q → mget q (s.handleCallEnd p m).activeCalls
      = mget q s.activeCalls) ∧
    ∀ q, p ≠ q → mget q (s.handleCallEnd p m).rtc.peerConnections
      = mget q s.rtc.peerConnections := by
  constructor
  · intro q hpq
    exact mget_mdel_ne p q s.activeCalls hpq
  · intro q hpq
    exact closePeerConnection_mget_ne _ p q hpq

/-- C7: `handleSignalingMessage` isolation.  (1) A message whose type has
no registered handler changes nothing at all — in particular no Call
Session's state.  (2) For every inbound message, the sessions (call
record and transport session) of every peer other than the sender are
unchanged.  (3) A failure thrown inside a handler is caught and does not
propagate: dispatch is a total function into states, and e.g. an
`rtc:answer` whose engine call throws (no connection registered for the
peer) leaves the state exactly as it was. -/
theorem c7_dispatch_isolated (s : SignalingState) (ans p : String)
    (m : InMsg) :
    (m.type ≠ "rtc:offer" → m.type ≠ "rtc:answer" →
     m.type ≠ "rtc:ice-candidate" → m.type ≠ "rtc:call-request" →
     m.type ≠ "rtc:call-accept" → m.type ≠ "rtc:call-reject" →
     m.type ≠ "rtc:call-end" → s.handleSignalingMessage ans p m = s) ∧
    (∀ q, q ≠ p →
      mget q (s.handleSignalingMessage ans p m).activeCalls
        = mget q s.activeCalls ∧
      mget q (s.handleSignalingMessage ans p m).rtc.peerConnections
        = mget q s.rtc.peerConnections) ∧
    (m.type = "rtc:answer" → mget p s.rtc.peerConnections = none →
      s.handleSignalingMessage ans p m = s) := by
  refine ⟨?_, ?_, ?_⟩
  · intro h1 h2 h3 h4 h5 h6 h7
    simp [SignalingState.handleSignalingMessage, h1, h2, h3, h4, h5, h6, h7]
  · intro q hq
    have hpq : p ≠ q := Ne.symm hq
    unfold SignalingState.handleSignalingMessage
    by_cases t1 : m.type = "rtc:offer"
    · rw [if_pos t1]
      obtain ⟨ha, hb⟩ := handleOffer_parts s ans p m
      exact ⟨by rw [ha], hb q hpq⟩
    rw [if_neg t1]
    by_cases t2 : m.type = "rtc:answer"
    · rw [if_pos t2]
      obtain ⟨ha, hb⟩ := handleAnswer_parts s p m
      exact ⟨by rw [ha], hb q hpq⟩
    rw [if_neg t2]
    by_cases t3 : m.type = "rtc:ice-candidate"
    · rw [if_pos t3]
      obtain ⟨ha, hb⟩ := handleIceCandidate_parts s p m
      exact ⟨by rw [ha], hb q hpq⟩
    rw [if_neg t3]
    by_cases t4 : m.type = "rtc:call-request"
    · rw [if_pos t4]
      exact ⟨rfl, rfl⟩
    rw [if_neg t4]
    by_cases t5 : m.type = "rtc:call-accept"
    · rw [if_pos t5]
      exact ⟨rfl, rfl⟩
    rw [if_neg t5]
    by_cases t6 : m.type = "rtc:call-reject"
    · rw [if_pos t6]
      obtain ⟨ha, hb⟩ := handleCallReject_parts s p m
      exact ⟨ha q hpq, hb q hpq⟩
    rw [if_neg t6]
    by_cases t7 : m.type = "rtc:call-end"
    · rw [if_pos t7]
      obtain ⟨ha, hb⟩ := handleCallEnd_parts s p m
      exact ⟨ha q hpq, hb q hpq⟩
    rw [if_neg t7]
    exact ⟨rfl, rfl⟩
  · intro ht hnone
    simp [SignalingState.handleSignalingMessage, ht,
      SignalingState.handleAnswer, RTCManagerState.handleAnswer, hnone]

/-- Witness for C7: a concrete unregistered message type is a global
no-op, and a concrete `rtc:call-end` from peer `p` leaves peer `q2`'s
(absent) records untouched. -/
theorem c7_dispatch_isolated_witness :
    c3State.handleSignalingMessage "ansSdp" "p" c7Msg = c3State ∧
    mget "q2" (sigEmpty.handleSignalingMessage "ansSdp" "p"
      { c7Msg with type := "rtc:call-end" }).activeCalls
      = mget "q2" sigEmpty.activeCalls :=
  ⟨(c7_dispatch_isolated c3State "ansSdp" "p" c7Msg).1 (by decide) (by decide)
      (by decide) (by decide) (by decide) (by decide) (by decide),
   ((c7_dispatch_isolated sigEmpty "ansSdp" "p"
      { c7Msg with type := "rtc:call-end" }).2.1 "q2" (by decide)).1⟩

/-- C5 counterexample: starting from an empty Coordinator, when offer
generation fails `initiateCall` rethrows the error but performs no
cleanup: the freshly created transport session for peer `p` is still
registered afterwards (only the call record is absent, because it would
have been written after the failing step). -/
theorem c5_counterexample :
    isErr (sigEmpty.initiateCall "p" "c1" false "sdpX" 0).2 = true ∧
    mget "p" (sigEmpty.initiateCall "p" "c1" false "sdpX" 0).1.rtc.peerConnections
      = some pcFresh ∧
    mget "p" (sigEmpty.initiateCall "p" "c1" false "sdpX" 0).1.activeCalls
      = none := by decide

/-- C5 amended: when a step of `initiateCall` fails (offer generation),
the error is surfaced with no cleanup of the partially created session:
the transport session registered before the failing step remains
registered, while the call records are exactly as before the call (the
record for `peerId` is only written after every step succeeds). -/
theorem c5_initiateCall_failure_no_cleanup (s : SignalingState)
    (p cid sdp : String) (now : Nat) :
    isErr (s.initiateCall p cid false sdp now).2 = true ∧
    (mget p (s.initiateCall p cid false sdp now).1.rtc.peerConnections).isSome
      = true ∧
    (s.initiateCall p cid false sdp now).1.activeCalls = s.activeCalls := by
  simp [SignalingState.initiateCall, RTCManagerState.createOffer,
    RTCManagerState.createPeerConnection, mget_mset_self, isErr,
    sendSignalingMessage_activeCalls, sendSignalingMessage_rtc]

/-- C6 counterexample: with a fully negotiated session already registered
for peer `p`, `createPeerConnection("p", false)` does not fail — it has no
failure path at all — and silently replaces the existing session with a
fresh one, without closing the old connection (`closedPeers` stays
empty). -/
theorem c6_counterexample :
    mget "p" c6Rtc.peerConnections = some pcNegotiated ∧
    mget "p" (c6Rtc.createPeerConnection "p" false).peerConnections
      = some pcFresh ∧
    (c6Rtc.createPeerConnection "p" false).closedPeers = [] := by decide

/-- C6 amended: `createPeerConnection` performs no existence check and
never fails: it always registers a fresh connection for the peer,
replacing any previously registered session (which is not closed —
the closure trace is unchanged) and leaving every other peer's session
untouched. -/
theorem c6_createPeerConnection_replaces (m : RTCManagerState) (p : String)
    (ini : Bool) :
    mget p (m.createPeerConnection p ini).peerConnections
      = some { senders := m.localStream.getD [], localDescription := none,
               remoteDescription := none, addedCandidates := [] } ∧
    (m.createPeerConnection p ini).closedPeers = m.closedPeers ∧
    ∀ q, q ≠ p → mget q (m.createPeerConnection p ini).peerConnections
      = mget q m.peerConnections := by
  refine ⟨?_, rfl, fun q hq => ?_⟩
  · simp [RTCManagerState.createPeerConnection, mget_mset_self]
  · exact createPeerConnection_mget_ne m p q ini (Ne.symm hq)

/-- Witness for the amended C6 at the concrete negotiated state. -/
theorem c6_createPeerConnection_replaces_witness :
    mget "p" (c6Rtc.createPeerConnection "p" false).peerConnections
      = some { senders := c6Rtc.localStream.getD [], localDescription := none,
               remoteDescription := none, addedCandidates := [] } ∧
    mget "q" (c6Rtc.createPeerConnection "p" false).peerConnections
      = mget "q" c6Rtc.peerConnections :=
  ⟨(c6_createPeerConnection_replaces c6Rtc "p" false).1,
   (c6_createPeerConnection_replaces c6Rtc "p" false).2.2 "q" (by decide)⟩

/-- C9 counterexample: `c2State` holds a non-terminal (`connecting`) call
for peer `p`, yet `initiateCall` does not fail with any conflict error:
it succeeds, returns the new callId, and overwrites the existing record
(and the session): the claimed precondition check does not exist. -/
theorem c9_counterexample :
    mget "p" c2State.activeCalls = some c2Rec ∧
    c2Rec.state = "connecting" ∧
    (c2State.initiateCall "p" "c2" true "sdp2" 9).2 = Except.ok "c2" ∧
    mget "p" (c2State.initiateCall "p" "c2" true "sdp2" 9).1.activeCalls
      = some { callId := "c2", initiator := true, startTime := 9,
               state := "connecting" } :=
  ⟨by decide, by decide, by rfl, by decide⟩

/-- C9 amended: `initiateCall` performs no conflict check.  Even when a
non-terminal call session already exists for the peer, it proceeds —
sending a new `call-request`, replacing the registered transport session
and overwriting the call record — and returns the callId used. -/
theorem c9_initiateCall_no_conflict_check (s : SignalingState)
    (p cid sdp : String) (now : Nat) (c : CallRecord)
    (hc : mget p s.activeCalls = some c) (hnt : c.state = "connecting") :
    (s.initiateCall p cid true sdp now).2 = Except.ok cid ∧
    mget p (s.initiateCall p cid true sdp now).1.activeCalls
      = some { callId := cid, initiator := true, startTime := now,
               state := "connecting" } := by
  simp [SignalingState.initiateCall, RTCManagerState.createOffer,
    RTCManagerState.createPeerConnection, mget_mset_self,
    sendSignalingMessage_activeCalls, sendSignalingMessage_rtc]

/-- Witness for the amended C9 at the concrete conflicting state. -/
theorem c9_initiateCall_no_conflict_check_witness :
    (c2State.initiateCall "p" "c3" true "sdp3" 11).2 = Except.ok "c3" ∧
    mget "p" (c2State.initiateCall "p" "c3" true "sdp3" 11).1.activeCalls
      = some { callId := "c3", initiator := true, startTime := 11,
               state := "connecting" } :=
  c9_initiateCall_no_conflict_check c2State "p" "c3" "sdp3" 11 c2Rec
    (by decide) (by decide)
